import Mathlib

/-!
Shallow embedding of `src/backend/scripts/TI-E2E-scraper.py` (the crawl
engine of the E2EChatBot repository) and proofs of the spec's claims
about it.

Modelling conventions:
* A fetched HTML body is abstracted to the structural content the parsers
  inspect (the selected elements), not raw markup.  `none` models a fetch
  that returned Python `None`; an explicit `.empty` constructor models a
  falsy (empty-string) body, since the source guards both with
  `if not html`.
* Network outcomes are an explicit inductive (`HttpResponse`): the Python
  `try`/`except` ladder of `fetch_html` becomes a total match.
* `print` logging is modelled as the list of lines a call emits.
* The chunk loop `range(1, num_pages+1, chunk_size)` is modelled by
  `pyRange`, a faithful rendering of Python's `range` for positive step.
-/

namespace Scraper

/-- Answered status of a listing item.  The source uses the strings
"Answered", "Not Answered" and "Unknown"; the spec's enum names are
`Answered`, `NotAnswered`, `Unknown`. -/
inductive Status
  | answered
  | notAnswered
  | unknown
deriving DecidableEq, Repr

/-- ListingItem: `{"title": ..., "url": ..., "status": ...}` produced by
`parse_listing_page`. -/
structure ListingItem where
  title : String
  url : String
  status : Status
deriving DecidableEq, Repr

/-- DetailRecord: `{"title", "url", "question", "answer"}` assembled by
`gather_detail_pages`. -/
structure DetailRecord where
  title : String
  url : String
  question : String
  answer : String
deriving DecidableEq, Repr

/-!  Transport: `fetch_html`.  -/

/-- Outcome of one HTTP request, as discriminated by `fetch_html`'s
`try`/`except` ladder: a 403 status, `resp.raise_for_status()` raising
`aiohttp.ClientResponseError` for another 4xx/5xx status, a generic
`aiohttp.ClientError` (connection-level failure, carrying its message),
or `asyncio.TimeoutError`.  `β` is the body type delivered on success. -/
inductive HttpResponse (β : Type)
  | ok (body : β)
  | status403
  | clientResponseError (status : Nat)
  | clientError (msg : String)
  | timeoutError
deriving DecidableEq, Repr

/-- Embedding of `fetch_html(session, url, sem, ...)`: returns the body on
success and `None` on every error branch, printing one warning line per
failure.  The pair is (returned value, printed log lines). -/
def fetch_html {β : Type} (url : String) : HttpResponse β → Option β × List String
  | .ok body => (some body, [])
  | .status403 =>
      (none, ["*** 403 Forbidden: " ++ url ++ " (Skipping...)"])
  | .clientResponseError status =>
      (none, ["*** HTTP Error " ++ toString status ++ " on " ++ url ++ " (Skipping...)"])
  | .clientError msg =>
      (none, ["*** Client Error fetching " ++ url ++ ": " ++ msg])
  | .timeoutError =>
      (none, ["*** Timeout for " ++ url])

/-!  Listing parser: `parse_listing_page`.  -/

/-- Content of a `div.icon.cell.answer-status` sibling marker: which of the
three indicator elements the selectors of `parse_listing_page` find in it
("Question answered" verified link, "Answer suggested" suggested link,
"Unanswered" span). -/
structure StatusDiv where
  hasVerified : Bool
  hasSuggested : Bool
  hasUnanswered : Bool
deriving DecidableEq, Repr

/-- One `div.name.cell` item container of a listing page: its
`a.internal-link.view-post` link (title, href) when present, and the
`answer-status` sibling markers found by `find_previous_sibling` /
`find_next_sibling`. -/
structure ContainerDiv where
  link : Option (String × String)
  prevStatusDiv : Option StatusDiv
  nextStatusDiv : Option StatusDiv
deriving DecidableEq, Repr

/-- Structural content of a listing page body: `.empty` is a falsy
(empty) body, `.doc` carries the `div.name.cell` containers in document
order. -/
inductive ListingHtml
  | empty
  | doc (question_divs : List ContainerDiv)
deriving DecidableEq, Repr

/-- Status classification of `parse_listing_page`'s `if`/`elif` chain on a
found `status_div`: verified → "Answered", else suggested → "Answered",
else unanswered → "Not Answered", else "Unknown". -/
def statusOfDiv (d : StatusDiv) : Status :=
  if d.hasVerified then .answered
  else if d.hasSuggested then .answered
  else if d.hasUnanswered then .notAnswered
  else .unknown

/-- Embedding of `parse_listing_page(html)`: `None` or a falsy body yields
`[]`; otherwise each container with a link becomes a ListingItem, status
taken from the preceding-or-following sibling marker (Python `or`: the
preceding one wins when present), `"Unknown"` when neither exists;
containers without a link are skipped. -/
def parse_listing_page : Option ListingHtml → List ListingItem
  | none => []
  | some .empty => []
  | some (.doc divs) =>
      divs.filterMap fun div =>
        div.link.map fun tu =>
          let status :=
            match div.prevStatusDiv.orElse fun _ => div.nextStatusDiv with
            | some d => statusOfDiv d
            | none => .unknown
          { title := tu.1, url := tu.2, status := status }

/-!  Detail parser: `parse_detail_page`.  -/

/-- Structural content of a detail page body: `.empty` is a falsy body;
`.doc questionDiv answerDiv` carries the text of the
`div.thread-start div.content.full div.content` region when present, and
for the first verified/suggested element (when present) the text of its
inner `div.content` region (when that is present). -/
inductive DetailHtml
  | empty
  | doc (questionDiv : Option String) (answerDiv : Option (Option String))
deriving DecidableEq, Repr

/-- Question/answer fragment returned by `parse_detail_page`. -/
structure QA where
  question : String
  answer : String
deriving DecidableEq, Repr

/-- Embedding of `parse_detail_page(html)`: a `None` or falsy body yields
the sentinel pair; otherwise missing question region yields
"No Question Found", and a missing verified/suggested element or missing
inner content region yields "No Answer Found". -/
def parse_detail_page : Option DetailHtml → QA
  | none => { question := "No Question Found", answer := "No Answer Found" }
  | some .empty => { question := "No Question Found", answer := "No Answer Found" }
  | some (.doc questionDiv answerDiv) =>
      { question := questionDiv.getD "No Question Found"
        answer :=
          match answerDiv with
          | some contentDiv => contentDiv.getD "No Answer Found"
          | none => "No Answer Found" }

/-!  Listing URLs and the listing phase: `gather_listing_pages`.  -/

/-- Bare forum base URL (`base_url_1` in `gather_listing_pages`), used for
page 1. -/
def base_url_1 : String :=
  "https://e2e.ti.com/support/processors-group/processors/f/processors-forum"

/-- Pagination-fragment URL (`base_url_n.format(page)` in
`gather_listing_pages`), used for pages other than 1. -/
def base_url_n (page : Nat) : String :=
  "https://e2e.ti.com/support/processors-group/processors/f/processors-forum?pifragment-322293="
    ++ toString page

/-- URL chosen for one listing page by the task-building loop of
`gather_listing_pages`: `if page == 1` the bare base URL, else the
fragment URL. -/
def listing_url (page : Nat) : String :=
  if page = 1 then base_url_1 else base_url_n page

/-- URLs fetched by the listing phase for the page range
`range(start_page, end_page + 1)`, in request order. -/
def fetched_listing_urls (start_page end_page : Nat) : List String :=
  (List.range' start_page (end_page + 1 - start_page)).map listing_url

/-- Embedding of `gather_listing_pages(start_page, end_page, existing_urls)`:
fetch every page of `range(start_page, end_page+1)` (the network is the
map `w` from URL to outcome), parse each body, keep per page the items
whose url is not in `existing_urls`, and concatenate. -/
def gather_listing_pages (w : String → HttpResponse ListingHtml)
    (start_page end_page : Nat) (existing_urls : List String) : List ListingItem :=
  (List.range' start_page (end_page + 1 - start_page)).flatMap fun page =>
    (parse_listing_page (fetch_html (listing_url page) (w (listing_url page))).1).filter
      fun q => decide (q.url ∉ existing_urls)

/-!  Detail phase: `gather_detail_pages`.  -/

/-- Embedding of `gather_detail_pages(answered_questions)`: fetch each
question's url, parse the detail page (possibly `None`), and assemble one
record per input question, positionally. -/
def gather_detail_pages (w : String → HttpResponse DetailHtml)
    (answered_questions : List ListingItem) : List DetailRecord :=
  answered_questions.map fun q =>
    let qa := parse_detail_page (fetch_html q.url (w q.url)).1
    { title := q.title, url := q.url, question := qa.question, answer := qa.answer }

/-!  Chunk partitioning of `scrape_ti_e2e_forum_async`.  -/

/-- Python `range(start, stop, step)` for a positive step: the arithmetic
progression starting at `start` with `⌈(stop - start) / step⌉` elements. -/
def pyRange (start stop step : Nat) : List Nat :=
  List.range' start ((stop - start + step - 1) / step) step

/-- Chunk ranges produced by the orchestrator's loop
`for chunk_start in range(1, num_pages+1, chunk_size)` with
`chunk_end = min(num_pages, chunk_start + chunk_size - 1)`. -/
def chunkRanges (num_pages chunk_size : Nat) : List (Nat × Nat) :=
  (pyRange 1 (num_pages + 1) chunk_size).map fun chunk_start =>
    (chunk_start, min num_pages (chunk_start + chunk_size - 1))

/-!  Dedup store: the `existing_urls` loading block of
`scrape_ti_e2e_forum_async`.  -/

/-- One file of the prior-artifacts directory: its filename and, when it
parses as a JSON array of records, the `url` field of each element. -/
structure ArtifactFile where
  name : String
  records : List DetailRecord
deriving DecidableEq, Repr

/-- Filename test `filename.endswith(".json")`, as a suffix test on the
characters of the name. -/
def isJsonFile (f : ArtifactFile) : Bool :=
  ".json".data.isSuffixOf f.name.data

/-- Embedding of the `existing_urls` construction: `none` models
`previous_files_directory` being `None` or not a directory
(`os.path.isdir` false), yielding the empty set; otherwise every file
whose name ends in `.json` is read and the `url` fields of its records
are accumulated.  The set is represented by the accumulation list;
membership is the set membership. -/
def load_existing_urls : Option (List ArtifactFile) → List String
  | none => []
  | some files =>
      (files.filter isJsonFile).flatMap fun f =>
        f.records.map (·.url)

/-!  Render probe: `fetch_page_full` and `get_last_page_number`.  -/

/-- Structural content of the rendered forum index returned by
`page.content()`: `.empty` is a falsy body, `.doc` carries the integer
`data-page` values of the `a.last[data-type=last]` pagination links. -/
inductive RenderedContent
  | empty
  | doc (lastPageLinks : List Nat)
deriving DecidableEq, Repr

/-- Outcome of one playwright rendering attempt: the rendered content, or
an exception raised by `chromium.launch` / `page.goto` /
`page.content`. -/
inductive RenderOutcome
  | ok (content : RenderedContent)
  | raised (exc : String)
deriving DecidableEq, Repr

/-- Embedding of `fetch_page_full(url)`: the body has no `try`/`except`,
so a raised playwright exception propagates to the caller (modelled as
`Except.error`); otherwise the rendered content is returned. -/
def fetch_page_full : RenderOutcome → Except String RenderedContent
  | .ok content => .ok content
  | .raised exc => .error exc

/-- Embedding of `get_last_page_number(session, url, sem)`: awaits
`fetch_page_full` (propagating anything it raises), returns `None` on a
falsy body, picks the pagination link with the maximal `data-page` value
and returns that value, or `None` when there is no such link. -/
def get_last_page_number (render : RenderOutcome) : Except String (Option Nat) := do
  let html ← fetch_page_full render
  match html with
  | .empty => return none
  | .doc links =>
    match links.max? with
    | some m => return some m
    | none => return none

/-!  Probe phase and launcher of the orchestrator.  -/

/-- Probe phase of `scrape_ti_e2e_forum_async` (the `last_page` /
`num_pages` resolution): `probeResult` is what `get_last_page_number`
would return if awaited.  Returns the resolved `num_pages` together with
whether the rendered-page probe was invoked.  `overwrite_last_page`
short-circuits the probe; then `num_pages` takes precedence when
supplied; else a truthy `last_page` is used; else the default is 1. -/
def probe_num_pages (probeResult : Option Nat)
    (num_pages overwrite_last_page : Option Nat) : Nat × Bool :=
  let lastPage : Option Nat × Bool :=
    match overwrite_last_page with
    | some v => (some v, false)
    | none => (probeResult, true)
  let total : Nat :=
    match num_pages with
    | some n => n
    | none =>
      match lastPage.1 with
      | some v => if v = 0 then 1 else v
      | none => 1
  (total, lastPage.2)

/-- Embedding of the launcher `scrape_ti_e2e_forum(...)`'s call
`scrape_ti_e2e_forum_async(output_file, chunk_size,
previous_files_directory, overwrite_last_page)`: the fourth positional
argument binds to the async function's `num_pages` parameter, and its
`overwrite_last_page` parameter keeps its default `None`. -/
def launcher_probe_num_pages (probeResult : Option Nat)
    (overwrite_last_page : Option Nat) : Nat × Bool :=
  probe_num_pages probeResult overwrite_last_page none

/-!  Chunk loop of `scrape_ti_e2e_forum_async`.  -/

/-- Network of one run: listing bodies by URL and detail bodies by URL. -/
structure World where
  listing : String → HttpResponse ListingHtml
  detail : String → HttpResponse DetailHtml

/-- Embedding of the chunk loop of `scrape_ti_e2e_forum_async`: for each
chunk, gather listings (already filtered against `existing_urls`), keep
the items with `status == "Answered"`, fetch and parse their detail
pages, and extend `all_results`.  `existing_urls` is never mutated during
the run, exactly as in the source. -/
def run_chunks (w : World) (num_pages chunk_size : Nat)
    (existing_urls : List String) : List DetailRecord :=
  (chunkRanges num_pages chunk_size).flatMap fun c =>
    let listings := gather_listing_pages w.listing c.1 c.2 existing_urls
    let answered := listings.filter fun q => decide (q.status = .answered)
    gather_detail_pages w.detail answered

/-!  Theorems for the spec's claims.  -/

/-- C4: `fetch_html` never raises: every error classification — 403,
another 4xx/5xx status, a connection-level client error, a timeout —
resolves to a `None` body, and the emitted warning line contains the
URL. -/
theorem fetch_html_absorbs_all_failures {β : Type} (url : String)
    (r : HttpResponse β) (h : ∀ b, r ≠ .ok b) :
    (fetch_html url r).1 = none ∧
      ∃ line ∈ (fetch_html url r).2, ∃ pre post, line = pre ++ url ++ post := by
  cases r with
  | ok body => exact absurd rfl (h body)
  | status403 =>
      refine ⟨rfl, "*** 403 Forbidden: " ++ url ++ " (Skipping...)", ?_,
        "*** 403 Forbidden: ", " (Skipping...)", rfl⟩
      simp [fetch_html]
  | clientResponseError status =>
      refine ⟨rfl, "*** HTTP Error " ++ toString status ++ " on " ++ url ++ " (Skipping...)", ?_,
        "*** HTTP Error " ++ toString status ++ " on ", " (Skipping...)", rfl⟩
      simp [fetch_html]
  | clientError msg =>
      refine ⟨rfl, "*** Client Error fetching " ++ url ++ ": " ++ msg, ?_,
        "*** Client Error fetching ", ": " ++ msg, ?_⟩
      · simp [fetch_html]
      · simp [String.append_assoc]
  | timeoutError =>
      refine ⟨rfl, "*** Timeout for " ++ url, ?_, "*** Timeout for ", "", ?_⟩
      · simp [fetch_html]
      · simp

/-- Witness for C4 at a concrete blocked URL. -/
theorem fetch_html_absorbs_all_failures_witness :
    (fetch_html (β := ListingHtml) "https://e2e.ti.com/x" HttpResponse.status403).1 = none :=
  (fetch_html_absorbs_all_failures "https://e2e.ti.com/x" HttpResponse.status403
    (by intro b hb; exact HttpResponse.noConfusion hb)).1

/-- C3: the detail phase never omits a record and never emits a partial
one: the output has one record per input question, and whenever the
detail fetch fails (any non-`ok` outcome, so the body is `None`), the
record at that position carries the question's title and url together
with exactly the sentinel pair. -/
theorem detail_failure_yields_sentinel_record (w : String → HttpResponse DetailHtml)
    (qs : List ListingItem) :
    (gather_detail_pages w qs).length = qs.length ∧
    ∀ (i : Nat) (q : ListingItem), qs[i]? = some q → (∀ b, w q.url ≠ .ok b) →
      (gather_detail_pages w qs)[i]? =
        some { title := q.title, url := q.url,
               question := "No Question Found", answer := "No Answer Found" } := by
  constructor
  · simp [gather_detail_pages]
  · intro i q hq hfail
    rw [gather_detail_pages, List.getElem?_map, hq]
    have hbody : (fetch_html q.url (w q.url)).1 = none := by
      cases hr : w q.url with
      | ok body => exact absurd hr (hfail body)
      | status403 => rfl
      | clientResponseError status => rfl
      | clientError msg => rfl
      | timeoutError => rfl
    simp [hbody, parse_detail_page]

/-- Witness for C3: a timed-out detail fetch for a concrete answered item
produces the full sentinel record at its position. -/
theorem detail_failure_yields_sentinel_record_witness :
    (gather_detail_pages (fun _ => HttpResponse.timeoutError)
        [{ title := "Q1", url := "https://e2e.ti.com/t/1", status := Status.answered }])[0]? =
      some { title := "Q1", url := "https://e2e.ti.com/t/1",
             question := "No Question Found", answer := "No Answer Found" } :=
  (detail_failure_yields_sentinel_record (fun _ => HttpResponse.timeoutError)
      [{ title := "Q1", url := "https://e2e.ti.com/t/1", status := Status.answered }]).2
    0 { title := "Q1", url := "https://e2e.ti.com/t/1", status := Status.answered }
    rfl (by intro b hb; exact HttpResponse.noConfusion hb)

/-- C10: the listing phase's URL choice: page 1 uses the bare base URL,
every page `n ≥ 2` uses the pagination-fragment URL for `n`, and the
fragment URL for page 1 is not what page 1 is fetched from. -/
theorem listing_url_page_one_bare :
    fetched_listing_urls 1 3 = [listing_url 1, listing_url 2, listing_url 3]
  ∧ listing_url 1 = base_url_1
  ∧ (∀ n, 2 ≤ n → listing_url n = base_url_n n)
  ∧ listing_url 1 ≠ base_url_n 1 := by
  refine ⟨rfl, rfl, ?_, by decide⟩
  intro n hn
  have : n ≠ 1 := by omega
  simp [listing_url, this]

/-- Witness for C10 at page 2. -/
theorem listing_url_page_one_bare_witness :
    listing_url 2 = base_url_n 2 :=
  listing_url_page_one_bare.2.2.1 2 (by decide)

/-- C6: through the launcher `scrape_ti_e2e_forum`, an explicit override
of 250 does determine the page count but the rendered-page probe is still
invoked (second component `true`), because the launcher passes
`overwrite_last_page` positionally into the async function's `num_pages`
parameter; only a direct call to the async function with
`overwrite_last_page` skips the probe (second component `false`). -/
theorem launcher_override_still_invokes_probe :
    launcher_probe_num_pages (some 999) (some 250) = (250, true)
  ∧ probe_num_pages (some 999) none (some 250) = (250, false)
  ∧ probe_num_pages (some 321) none none = (321, true)
  ∧ probe_num_pages none none none = (1, true) := ⟨rfl, rfl, rfl, rfl⟩

/-- C7: a playwright exception raised while rendering the probe page
propagates out of `get_last_page_number` (there is no handler in
`fetch_page_full`), aborting the run instead of returning `None`; only
the non-raising failure shapes — falsy content or no pagination link —
return `None`, upon which the orchestrator defaults to one page. -/
theorem probe_render_exception_propagates :
    get_last_page_number (.raised "net::ERR_CONNECTION_REFUSED") =
      .error "net::ERR_CONNECTION_REFUSED"
  ∧ get_last_page_number (.ok .empty) = .ok none
  ∧ get_last_page_number (.ok (.doc [])) = .ok none
  ∧ probe_num_pages none none none = (1, true)
  ∧ get_last_page_number (.ok (.doc [3, 9600, 12])) = .ok (some 9600) := by
  refine ⟨rfl, rfl, rfl, rfl, rfl⟩

/-- C5: the SeenSet is exactly the union of the `url` fields of the
records of the `.json` artifact files of the prior directory, and a
missing, absent or unprovided directory — and likewise an empty one —
yields the empty set. -/
theorem load_existing_urls_is_union (files : List ArtifactFile) (u : String) :
    (u ∈ load_existing_urls (some files) ↔
      ∃ f ∈ files, isJsonFile f = true ∧ ∃ r ∈ f.records, r.url = u)
  ∧ load_existing_urls none = []
  ∧ load_existing_urls (some []) = [] := by
  refine ⟨?_, rfl, rfl⟩
  simp only [load_existing_urls, List.mem_flatMap, List.mem_filter, List.mem_map]
  constructor
  · rintro ⟨f, ⟨hf, hjson⟩, r, hr, rfl⟩
    exact ⟨f, hf, hjson, r, hr, rfl⟩
  · rintro ⟨f, hf, hjson, r, hr, rfl⟩
    exact ⟨f, ⟨hf, hjson⟩, r, hr, rfl⟩

/-- Witness for C5: a concrete two-file directory where only the `.json`
file contributes its url. -/
theorem load_existing_urls_is_union_witness :
    "https://e2e.ti.com/t/7" ∈
      load_existing_urls (some
        [{ name := "run1.json",
           records := [{ title := "T", url := "https://e2e.ti.com/t/7",
                         question := "q", answer := "a" }] },
         { name := "notes.txt",
           records := [{ title := "T", url := "https://e2e.ti.com/t/8",
                         question := "q", answer := "a" }] }]) :=
  (load_existing_urls_is_union
      [{ name := "run1.json",
         records := [{ title := "T", url := "https://e2e.ti.com/t/7",
                       question := "q", answer := "a" }] },
       { name := "notes.txt",
         records := [{ title := "T", url := "https://e2e.ti.com/t/8",
                       question := "q", answer := "a" }] }]
      "https://e2e.ti.com/t/7").1.mpr
    ⟨{ name := "run1.json",
       records := [{ title := "T", url := "https://e2e.ti.com/t/7",
                     question := "q", answer := "a" }] },
     List.mem_cons_self _ _, by decide,
     { title := "T", url := "https://e2e.ti.com/t/7", question := "q", answer := "a" },
     List.mem_cons_self _ _, rfl⟩

/-- C1: the input the orchestrator hands to `gather_detail_pages` for a
chunk — the answered filter applied to the listing phase's output — is
exactly the parsed listing items whose url is not in the SeenSet `S` and
whose status is Answered; in particular every item of that input has a
url outside `S`. -/
theorem detail_phase_input_exact (w : String → HttpResponse ListingHtml)
    (start_page end_page : Nat) (S : List String) :
    ((gather_listing_pages w start_page end_page S).filter
        fun q => decide (q.status = .answered))
      = ((List.range' start_page (end_page + 1 - start_page)).flatMap fun page =>
          parse_listing_page (fetch_html (listing_url page) (w (listing_url page))).1).filter
          (fun q => decide (q.url ∉ S ∧ q.status = .answered))
  ∧ ∀ q ∈ ((gather_listing_pages w start_page end_page S).filter
        fun q => decide (q.status = .answered)), q.url ∉ S := by
  constructor
  · rw [gather_listing_pages, List.filter_flatMap, List.filter_flatMap]
    congr 1
    funext page
    rw [List.filter_filter]
    congr 1
    funext q
    rw [Bool.decide_and]
    exact Bool.and_comm _ _
  · intro q hq
    rw [List.mem_filter] at hq
    have hq1 := hq.1
    rw [gather_listing_pages, List.mem_flatMap] at hq1
    obtain ⟨page, _, hmem⟩ := hq1
    rw [List.mem_filter] at hmem
    simpa using hmem.2

/-- Concrete world for the C1 witness: one listing page carrying three
items, two answered and one not, with the first answered one already
seen. -/
def seenWorld : String → HttpResponse ListingHtml := fun _ =>
  .ok (.doc
    [{ link := some ("A", "u1"),
       prevStatusDiv := some { hasVerified := true, hasSuggested := false, hasUnanswered := false },
       nextStatusDiv := none },
     { link := some ("B", "u2"),
       prevStatusDiv := some { hasVerified := true, hasSuggested := false, hasUnanswered := false },
       nextStatusDiv := none },
     { link := some ("C", "u3"),
       prevStatusDiv := some { hasVerified := false, hasSuggested := false, hasUnanswered := true },
       nextStatusDiv := none }])

/-- Witness for C1 at the concrete world: the detail-phase input equals
the doubly-filtered listing results. -/
theorem detail_phase_input_exact_witness :
    ((gather_listing_pages seenWorld 1 1 ["u1"]).filter
        fun q => decide (q.status = .answered))
      = ((List.range' 1 (1 + 1 - 1)).flatMap fun page =>
          parse_listing_page (fetch_html (listing_url page) (seenWorld (listing_url page))).1).filter
          (fun q => decide (q.url ∉ ["u1"] ∧ q.status = .answered)) :=
  (detail_phase_input_exact seenWorld 1 1 ["u1"]).1

/-- C8: classification behaviour of the listing parser: empty body yields
an empty sequence; containers concatenate independently; a container
without a link is skipped; a preceding sibling marker with a verified or
suggested indicator gives Answered and with only an unanswered indicator
gives NotAnswered, regardless of any following marker (preceding checked
first, first match wins); a marker without a recognized indicator, a
following-sibling-only marker, and no marker at all give the statuses the
`if`/`elif` chain assigns. -/
theorem listing_parser_classification :
    parse_listing_page none = []
  ∧ parse_listing_page (some .empty) = []
  ∧ (∀ divs divs2, parse_listing_page (some (.doc (divs ++ divs2)))
      = parse_listing_page (some (.doc divs)) ++ parse_listing_page (some (.doc divs2)))
  ∧ (∀ p n, parse_listing_page
        (some (.doc [{ link := none, prevStatusDiv := p, nextStatusDiv := n }])) = [])
  ∧ (∀ t u d n, d.hasVerified = true ∨ d.hasSuggested = true →
      parse_listing_page
          (some (.doc [{ link := some (t, u), prevStatusDiv := some d, nextStatusDiv := n }]))
        = [{ title := t, url := u, status := .answered }])
  ∧ (∀ t u d n, d.hasVerified = false → d.hasSuggested = false → d.hasUnanswered = true →
      parse_listing_page
          (some (.doc [{ link := some (t, u), prevStatusDiv := some d, nextStatusDiv := n }]))
        = [{ title := t, url := u, status := .notAnswered }])
  ∧ (∀ t u d n, d.hasVerified = false → d.hasSuggested = false → d.hasUnanswered = false →
      parse_listing_page
          (some (.doc [{ link := some (t, u), prevStatusDiv := some d, nextStatusDiv := n }]))
        = [{ title := t, url := u, status := .unknown }])
  ∧ (∀ t u d, parse_listing_page
        (some (.doc [{ link := some (t, u), prevStatusDiv := none, nextStatusDiv := some d }]))
      = [{ title := t, url := u, status := statusOfDiv d }])
  ∧ (∀ t u, parse_listing_page
        (some (.doc [{ link := some (t, u), prevStatusDiv := none, nextStatusDiv := none }]))
      = [{ title := t, url := u, status := .unknown }]) := by
  refine ⟨rfl, rfl, ?_, ?_, ?_, ?_, ?_, ?_, ?_⟩
  · intro divs divs2
    simp [parse_listing_page]
  · intro p n
    simp [parse_listing_page]
  · rintro t u d n (hv | hs)
    · simp [parse_listing_page, statusOfDiv, Option.orElse, hv]
    · cases hv : d.hasVerified <;>
        simp [parse_listing_page, statusOfDiv, Option.orElse, hv, hs]
  · intro t u d n hv hs hu
    simp [parse_listing_page, statusOfDiv, Option.orElse, hv, hs, hu]
  · intro t u d n hv hs hu
    simp [parse_listing_page, statusOfDiv, Option.orElse, hv, hs, hu]
  · intro t u d
    simp [parse_listing_page, Option.orElse]
  · intro t u
    simp [parse_listing_page, Option.orElse]

/-- Witness for C8: a preceding verified marker beats a following
unanswered marker. -/
theorem listing_parser_classification_witness :
    parse_listing_page (some (.doc
      [{ link := some ("T", "u"),
         prevStatusDiv := some { hasVerified := true, hasSuggested := false, hasUnanswered := false },
         nextStatusDiv := some { hasVerified := false, hasSuggested := false, hasUnanswered := true } }]))
      = [{ title := "T", url := "u", status := Status.answered }] :=
  listing_parser_classification.2.2.2.2.1 "T" "u"
    { hasVerified := true, hasSuggested := false, hasUnanswered := false }
    (some { hasVerified := false, hasSuggested := false, hasUnanswered := true })
    (Or.inl rfl)

/-- Helper for C2: flattening the chunk intervals produced from the
arithmetic progression of chunk starts recovers the original contiguous
page interval.  `last` is the fixed upper page bound, `m` the number of
pages remaining from `start`. -/
theorem chunk_flatMap_eq (cs : Nat) (hcs : 1 ≤ cs) :
    ∀ (k start m last : Nat), k = (m + cs - 1) / cs → last = start + m - 1 →
      ((List.range' start k cs).flatMap fun s =>
          List.range' s (min last (s + cs - 1) + 1 - s))
        = List.range' start m := by
  intro k
  induction k with
  | zero =>
    intro start m last hk _
    have hm : m = 0 := by
      rcases Nat.eq_zero_or_pos m with h0 | h1
      · exact h0
      · exfalso
        have : 1 ≤ (m + cs - 1) / cs := by
          rw [Nat.le_div_iff_mul_le (by omega)]
          omega
        omega
    subst hm
    simp
  | succ k ih =>
    intro start m last hk hlast
    have hm1 : 1 ≤ m := by
      by_contra hm0
      have hz : m = 0 := by omega
      subst hz
      have : (0 + cs - 1) / cs = 0 := Nat.div_eq_of_lt (by omega)
      omega
    simp only [List.range'_succ, List.flatMap_cons]
    have hhead : min last (start + cs - 1) + 1 - start = min m cs := by omega
    by_cases hmc : m ≤ cs
    · have hdiv : (m + cs - 1) / cs = 1 := by
        apply Nat.div_eq_of_lt_le
        · omega
        · omega
      have hk0 : k = 0 := by omega
      subst hk0
      simp only [List.range'_zero, List.flatMap_nil, List.append_nil]
      rw [hhead]
      congr 1
      omega
    · have hk2 : k = (m - cs + cs - 1) / cs := by
        have h3 : m + cs - 1 = m - 1 + cs := by omega
        have h4 : m - cs + cs - 1 = m - 1 := by omega
        rw [h4]
        rw [h3, Nat.add_div_right _ (by omega)] at hk
        omega
      have hlast2 : last = start + cs + (m - cs) - 1 := by omega
      rw [ih (start + cs) (m - cs) last hk2 hlast2, hhead]
      have hmin : min m cs = cs := by omega
      rw [hmin, List.range'_append_1]
      congr 1
      omega

/-- C2: the orchestrator's chunk loop partitions `[1, num_pages]`: the
ranges concatenate, in order, to exactly the page interval (hence
contiguous, increasing, with no gaps, overlaps or repetitions), every
range satisfies `start ≤ end`, and for 250 pages in chunks of 100 the
ranges are (1,100), (101,200), (201,250). -/
theorem chunk_partition_covers (num_pages chunk_size : Nat)
    (h1 : 1 ≤ num_pages) (h2 : 1 ≤ chunk_size) :
    ((chunkRanges num_pages chunk_size).flatMap fun c => List.range' c.1 (c.2 + 1 - c.1))
      = List.range' 1 num_pages
  ∧ (∀ c ∈ chunkRanges num_pages chunk_size, c.1 ≤ c.2)
  ∧ chunkRanges 250 100 = [(1, 100), (101, 200), (201, 250)] := by
  refine ⟨?_, ?_, by decide⟩
  · rw [chunkRanges, pyRange, List.flatMap_map]
    have e : num_pages + 1 - 1 + chunk_size - 1 = num_pages + chunk_size - 1 := by omega
    rw [e]
    exact chunk_flatMap_eq chunk_size h2 _ 1 num_pages num_pages rfl (by omega)
  · intro c hc
    rw [chunkRanges, pyRange, List.mem_map] at hc
    obtain ⟨s, hs, rfl⟩ := hc
    rw [List.mem_range'] at hs
    obtain ⟨i, hik, rfl⟩ := hs
    have h3 : chunk_size * (i + 1) ≤
        chunk_size * ((num_pages + 1 - 1 + chunk_size - 1) / chunk_size) :=
      Nat.mul_le_mul_left _ hik
    have h4 : chunk_size * ((num_pages + 1 - 1 + chunk_size - 1) / chunk_size) ≤
        num_pages + 1 - 1 + chunk_size - 1 := by
      rw [Nat.mul_comm]
      exact Nat.div_mul_le_self _ _
    have h5 : chunk_size * (i + 1) = chunk_size * i + chunk_size := by ring
    rw [h5] at h3
    dsimp only
    omega

/-- Witness for C2 at 250 pages and chunk size 100. -/
theorem chunk_partition_covers_witness :
    ((chunkRanges 250 100).flatMap fun c => List.range' c.1 (c.2 + 1 - c.1))
      = List.range' 1 250 :=
  (chunk_partition_covers 250 100 (by decide) (by decide)).1

/-- Helper: the detail phase preserves urls positionally. -/
theorem gather_detail_pages_urls (w : String → HttpResponse DetailHtml)
    (qs : List ListingItem) :
    (gather_detail_pages w qs).map DetailRecord.url = qs.map ListingItem.url := by
  rw [gather_detail_pages, List.map_map]
  rfl

/-- Helper: `flatMap` is monotone under pointwise sublists. -/
theorem flatMap_sublist_mono {α β : Type} {l : List α} {f g : α → List β}
    (h : ∀ a ∈ l, List.Sublist (f a) (g a)) :
    List.Sublist (l.flatMap f) (l.flatMap g) := by
  induction l with
  | nil => simp
  | cons a t ih =>
    simp only [List.flatMap_cons]
    exact (h a (List.mem_cons_self a t)).append (ih fun b hb => h b (List.mem_cons_of_mem a hb))

/-- World in which the same answered question appears on listing pages 1
and 2; its url is in no prior artifact. -/
def dupWorld : World where
  listing := fun _ =>
    .ok (.doc [{ link := some ("Q", "https://e2e.ti.com/t/1"),
                 prevStatusDiv :=
                   some { hasVerified := true, hasSuggested := false, hasUnanswered := false },
                 nextStatusDiv := none }])
  detail := fun _ => .ok (.doc (some "question text") (some (some "answer text")))

/-- Counterexample to C9 as stated: with the SeenSet empty and the same
url listed on pages 1 and 2 of a single 2-page run, the RunResult
contains two records with that url, so its urls are not unique —
`existing_urls` is never updated during the run and nothing deduplicates
within it. -/
theorem run_result_duplicate_url_counterexample :
    ((run_chunks dupWorld 2 100 []).map DetailRecord.url)
      = ["https://e2e.ti.com/t/1", "https://e2e.ti.com/t/1"]
  ∧ ¬ ((run_chunks dupWorld 2 100 []).map DetailRecord.url).Nodup := by
  exact ⟨rfl, by decide⟩

/-- C9 (amended): the RunResult's urls are unique provided the run's
filtered listing results contain no duplicate url across its chunks —
the spec's own assumption that listing pages within one run are
non-overlapping. -/
theorem run_result_urls_nodup_of_disjoint_pages (w : World) (num_pages chunk_size : Nat)
    (existing_urls : List String)
    (h : (((chunkRanges num_pages chunk_size).flatMap fun c =>
            gather_listing_pages w.listing c.1 c.2 existing_urls).map ListingItem.url).Nodup) :
    ((run_chunks w num_pages chunk_size existing_urls).map DetailRecord.url).Nodup := by
  refine List.Nodup.sublist ?_ h
  simp only [run_chunks, List.map_flatMap]
  apply flatMap_sublist_mono
  intro c _
  rw [gather_detail_pages_urls]
  exact (List.filter_sublist _).map _

/-- World in which one answered question appears on listing page 1 only;
page 2's fetch is blocked. -/
def singleWorld : World where
  listing := fun u =>
    if u = base_url_1 then
      .ok (.doc [{ link := some ("Q", "https://e2e.ti.com/t/1"),
                   prevStatusDiv :=
                     some { hasVerified := true, hasSuggested := false, hasUnanswered := false },
                   nextStatusDiv := none }])
    else .status403
  detail := fun _ => .timeoutError

/-- Witness for the amended C9 on a concrete non-overlapping run. -/
theorem run_result_urls_nodup_of_disjoint_pages_witness :
    ((run_chunks singleWorld 2 100 []).map DetailRecord.url).Nodup :=
  run_result_urls_nodup_of_disjoint_pages singleWorld 2 100 [] (by decide)

end Scraper
